import Mathlib

/-
  Verification development for the etre entity store.

  The definitions below are a shallow embedding of the repository's Go
  sources:
  * the `changestream` websocket client (session control protocol,
    ping/pong latency, stop/shutdown) from the changestream package;
  * the HTTP `api` package (`WriteResult`, the bulk-entity handlers,
    `queryHandler`, client-version resolution);
  * the `db` connector operations, whose implementation is not in the
    sources at hand (only its tests are); those are modelled from the
    spec, as marked in their doc comments.

  Conventions:
  * Go `int64` arithmetic is modelled on `Int` with explicit wrapping
    (`wrap64`) where the code subtracts timestamps; Go's `/` on int64
    truncates toward zero, which is `Int.tdiv`.
  * Side effects on the websocket (frames written, goroutines launched,
    the connection being closed) are recorded in an explicit state
    record `WSState`; a transport write is modelled as appending the
    frame to `sent` (transport I/O failures are external to the model).
  * Fallible Go functions return `Except`/`Option`; a Go panic is
    modelled as `Option.none` in `WriteResult`.
-/

namespace Etre

/-- An entity: the 24-char hex rendering of its `_id` plus its labels.
Only the `_id` is inspected by the code under verification
(`WriteResult` hex-encodes `diff["_id"]`); labels are carried opaquely. -/
structure Entity where
  id : String
  labels : List (String × String)
deriving DecidableEq

/-- A parsed label-selector query. The predicate tree itself is opaque to
the api handlers and the db connector modelled here; only the list of
referenced labels (used for metrics) is carried. -/
structure Query where
  predicates : List String
deriving DecidableEq

/-- etre.Latency: the `{Send, Recv, RTT}` millisecond triple returned by
the server-initiated ping. -/
structure Latency where
  Send : Int
  Recv : Int
  RTT : Int
deriving DecidableEq

/-- The zero value of `etre.Latency` (`var lag etre.Latency`). -/
def emptyLatency : Latency := { Send := 0, Recv := 0, RTT := 0 }

/-- Two's-complement wrap of an unbounded integer into the int64 range,
used where Go int64 arithmetic may overflow. -/
def wrap64 (x : Int) : Int := (x + 2 ^ 63) % 2 ^ 64 - 2 ^ 63

/-- Go int64 subtraction `a - b`. -/
def sub64 (a b : Int) : Int := wrap64 (a - b)

theorem wrap64_eq_self (x : Int) (hl : -(2 ^ 63) ≤ x) (hr : x < 2 ^ 63) :
    wrap64 x = x := by
  unfold wrap64
  omega

namespace Changestream

/-- Frames the server writes to the websocket (`WebsocketClient.send`):
the pong reply to a client ping, the ack for a client `start`, the error
control frame written by `sendError`, and the server-initiated ping. -/
inductive Frame where
  | pongF (srcTs : Option Int) (dstTs : Int)
  | startAck
  | errorF (msg : String)
  | pingF (srcTs : Int)
deriving DecidableEq

/-- Errors returned by `WebsocketClient.control` to `Run`. -/
inductive CtrlErr where
  | alreadyStarted
  | missingTs
  | unknownControl (name : String)
deriving DecidableEq

/-- The `Error()` string of each control error (`ErrAlreadyStarted =
errors.New("already started")`, and the two `fmt.Errorf` cases). -/
def CtrlErr.message : CtrlErr → String
  | .alreadyStarted => "already started"
  | .missingTs => "srcTs or dstTs not set in ping-ping control message"
  | .unknownControl n => "client sent unknown control message: " ++ n

/-- A decoded client control message (`msg["control"]` discriminator,
with the timestamp fields that `control` reads; a JSON number field that
is absent is `none`). -/
inductive Msg where
  | ping (srcTs : Option Int)
  | pong (srcTs dstTs : Option Int)
  | start (startTs : Option Int)
  | unknown (name : String)

/-- The observable state of one `WebsocketClient` session: its two state
flags, the effects of `Stop` (`streamer.Stop()` and `wsConn.Close()`),
the number of `runStreamer` goroutines launched, the single-slot
`pingChan` buffer (`make(chan etre.Latency, 1)` is a capacity-one
channel, embedded as an `Option`), and the ordered list of frames
written to the websocket. -/
structure WSState where
  streamerStarted : Bool
  stopped : Bool
  streamerStopped : Bool
  connClosed : Bool
  streamerRuns : Nat
  pingSlot : Option Latency
  sent : List Frame
deriving DecidableEq

/-- NewWebsocketClient: fresh session, `pingChan` empty. -/
def NewWebsocketClient : WSState :=
  { streamerStarted := false, stopped := false, streamerStopped := false
    connClosed := false, streamerRuns := 0, pingSlot := none, sent := [] }

/-- WebsocketClient.Stop: under the session lock, return immediately if
already stopped, else set the flag, stop the streamer and close the
websocket connection. -/
def Stop (s : WSState) : WSState :=
  if s.stopped then s
  else { s with stopped := true, streamerStopped := true, connClosed := true }

/-- `Stop` iterated n times (sequential calls to the session's stop). -/
def stopTimes : Nat → WSState → WSState
  | 0, s => s
  | n + 1, s => Stop (stopTimes n s)

/-- The latency triple computed in `control`'s pong case:
`t0` is `srcTs` (sent by the API), `t1` is `dstTs` (received by the
client), `now` the receive time of the pong; Go int64 subtraction
and division by 1e6 (truncated). -/
def pongLatency (t0 t1 now : Int) : Latency :=
  { Send := (sub64 t1 t0).tdiv 1000000
    Recv := (sub64 now t1).tdiv 1000000
    RTT := (sub64 now t0).tdiv 1000000 }

/-- WebsocketClient.control: handle one client control message received
at time `now` (nanoseconds). Mirrors the Go switch on `msg["control"]`:
`ping` replies with a pong frame; `pong` requires `srcTs`/`dstTs`,
computes the latency triple and delivers it to `pingChan` with a
non-blocking send (select/default: a full slot discards the value);
`start` errors with already-started if the streamer was started,
otherwise marks it started, launches `runStreamer` and acks; anything
else is an unknown-control error. -/
def control (s : WSState) (msg : Msg) (now : Int) : WSState × Option CtrlErr :=
  match msg with
  | .ping srcTs =>
    ({ s with sent := s.sent ++ [Frame.pongF srcTs now] }, none)
  | .pong srcTs dstTs =>
    match srcTs, dstTs with
    | some t0, some t1 =>
      let lag := pongLatency t0 t1 now
      match s.pingSlot with
      | none => ({ s with pingSlot := some lag }, none)
      | some _ => (s, none)
    | _, _ => (s, some CtrlErr.missingTs)
  | .start _ =>
    if s.streamerStarted then (s, some CtrlErr.alreadyStarted)
    else
      ({ s with streamerStarted := true, streamerRuns := s.streamerRuns + 1,
                sent := s.sent ++ [Frame.startAck] }, none)
  | .unknown n => (s, some (CtrlErr.unknownControl n))

/-- WebsocketClient.sendError: write an error control frame carrying the
error's message. -/
def sendError (s : WSState) (e : CtrlErr) : WSState :=
  { s with sent := s.sent ++ [Frame.errorF e.message] }

/-- One iteration of `WebsocketClient.Run` for a received control
message: dispatch to `control`; on error, `Run` calls `sendError` and
returns, which fires the deferred `Stop` and closes the connection. -/
def runStep (s : WSState) (msg : Msg) (now : Int) : WSState × Option CtrlErr :=
  match control s msg now with
  | (s', none) => (s', none)
  | (s', some e) => (Stop (sendError s' e), some e)

/-- WebsocketClient.Ping: write a ping frame (if the write fails, stop
the session and return the zero latency); then wait on `pingChan` up to
the timeout. `received` is the value obtained from the channel within
the timeout (`none` on timeout); the channel receive is a parameter
because the pong is delivered by the concurrent reader. -/
def Ping (s : WSState) (now : Int) (sendOk : Bool) (received : Option Latency) :
    Latency × WSState :=
  if sendOk then
    let s' := { s with sent := s.sent ++ [Frame.pingF now] }
    match received with
    | some lag => (lag, s')
    | none => (emptyLatency, s')
  else (emptyLatency, Stop s)

/-- Number of start-ack frames in a frame list. -/
def countAck (fs : List Frame) : Nat :=
  fs.countP (fun f => decide (f = Frame.startAck))

theorem Stop_Stop (s : WSState) : Stop (Stop s) = Stop s := by
  by_cases h : s.stopped = true
  · simp [Stop, h]
  · simp [Stop, h]

/-- Claim C1: on a fresh session the first client `start` succeeds: the
session is streaming (`streamerStarted`, one `runStreamer` launched),
exactly one start ack `{control:"start",error:""}` has been written and
the session stays open. A second `start` yields the already-started
error: no further ack, an error control frame with message
"already started" is written, and the connection is closed. -/
theorem start_acked_once_then_already_started (ts1 ts2 : Option Int) (now1 now2 : Int) :
    (runStep NewWebsocketClient (Msg.start ts1) now1).2 = none ∧
    (runStep NewWebsocketClient (Msg.start ts1) now1).1.streamerStarted = true ∧
    (runStep NewWebsocketClient (Msg.start ts1) now1).1.streamerRuns = 1 ∧
    (runStep NewWebsocketClient (Msg.start ts1) now1).1.stopped = false ∧
    (runStep NewWebsocketClient (Msg.start ts1) now1).1.sent = [Frame.startAck] ∧
    countAck (runStep NewWebsocketClient (Msg.start ts1) now1).1.sent = 1 ∧
    (runStep (runStep NewWebsocketClient (Msg.start ts1) now1).1 (Msg.start ts2) now2).2 =
      some CtrlErr.alreadyStarted ∧
    (runStep (runStep NewWebsocketClient (Msg.start ts1) now1).1 (Msg.start ts2) now2).1.sent =
      [Frame.startAck, Frame.errorF "already started"] ∧
    (runStep (runStep NewWebsocketClient (Msg.start ts1) now1).1 (Msg.start ts2) now2).1.stopped = true ∧
    (runStep (runStep NewWebsocketClient (Msg.start ts1) now1).1 (Msg.start ts2) now2).1.connClosed = true ∧
    countAck (runStep (runStep NewWebsocketClient (Msg.start ts1) now1).1 (Msg.start ts2) now2).1.sent = 1 := by
  exact ⟨rfl, rfl, rfl, rfl, rfl, rfl, rfl, rfl, rfl, rfl, rfl⟩

/-- Claim C3: `Stop` is idempotent: from a not-yet-stopped session,
calling it n+1 times equals calling it once, and the one call stops the
streamer and closes the transport. -/
theorem Stop_idempotent (s : WSState) (n : Nat) (h : s.stopped = false) :
    stopTimes (n + 1) s = Stop s ∧
    (Stop s).streamerStopped = true ∧
    (Stop s).connClosed = true ∧
    (Stop s).stopped = true := by
  refine ⟨?_, by simp [Stop, h], by simp [Stop, h], by simp [Stop, h]⟩
  induction n with
  | zero => rfl
  | succ m ih =>
    calc stopTimes (m + 1 + 1) s = Stop (stopTimes (m + 1) s) := rfl
      _ = Stop (Stop s) := by rw [ih]
      _ = Stop s := Stop_Stop s

theorem Stop_idempotent_witness :
    stopTimes (2 + 1) NewWebsocketClient = Stop NewWebsocketClient ∧
    (Stop NewWebsocketClient).streamerStopped = true ∧
    (Stop NewWebsocketClient).connClosed = true ∧
    (Stop NewWebsocketClient).stopped = true :=
  Stop_idempotent NewWebsocketClient 2 rfl

/-- Claim C4: when the server ping frame is written successfully but no
pong arrives within the timeout, `Ping` returns the zero latency and
leaves the session exactly as it was apart from the ping frame written:
in particular the session is not stopped and the connection not closed. -/
theorem Ping_timeout_empty_latency (s : WSState) (now : Int) :
    Ping s now true none =
      (emptyLatency, { s with sent := s.sent ++ [Frame.pingF now] }) ∧
    (Ping s now true none).2.stopped = s.stopped ∧
    (Ping s now true none).2.connClosed = s.connClosed ∧
    (Ping s now true none).2.streamerStopped = s.streamerStopped :=
  ⟨rfl, rfl, rfl, rfl⟩

/-- Claim C5: a pong carrying `srcTs = t0` and `dstTs = t1`, received at
`now`, makes `control` store for the pending ping the triple
`Send = (t1 - t0) / 1e6`, `Recv = (now - t1) / 1e6`,
`RTT = (now - t0) / 1e6` — nanosecond differences truncated to whole
milliseconds — provided the int64 timestamps are in a range where the
subtractions do not wrap (any realistic wall-clock values are). -/
theorem pong_latency_formula (t0 t1 now : Int) (s : WSState)
    (h0 : 0 ≤ t0) (h0' : t0 < 2 ^ 62) (h1 : 0 ≤ t1) (h1' : t1 < 2 ^ 62)
    (h2 : 0 ≤ now) (h2' : now < 2 ^ 62) (hs : s.pingSlot = none) :
    (control s (Msg.pong (some t0) (some t1)) now).1.pingSlot =
      some { Send := (t1 - t0).tdiv 1000000
             Recv := (now - t1).tdiv 1000000
             RTT := (now - t0).tdiv 1000000 } := by
  have e1 : sub64 t1 t0 = t1 - t0 := wrap64_eq_self _ (by omega) (by omega)
  have e2 : sub64 now t1 = now - t1 := wrap64_eq_self _ (by omega) (by omega)
  have e3 : sub64 now t0 = now - t0 := wrap64_eq_self _ (by omega) (by omega)
  simp [control, hs, pongLatency, e1, e2, e3]

theorem pong_latency_formula_witness :
    (control NewWebsocketClient (Msg.pong (some 1) (some 3000000)) 7000000).1.pingSlot =
      some { Send := ((3000000 : Int) - 1).tdiv 1000000
             Recv := ((7000000 : Int) - 3000000).tdiv 1000000
             RTT := ((7000000 : Int) - 1).tdiv 1000000 } :=
  pong_latency_formula 1 3000000 7000000 NewWebsocketClient
    (by decide) (by decide) (by decide) (by decide) (by decide) (by decide) rfl

/-- Claim C6: the ping slot starts empty (`make(chan etre.Latency, 1)`
holds at most one value); handling a well-formed pong never returns an
error, and the latency is delivered with a non-blocking send: it fills
an empty slot and is discarded when the slot already holds a value —
the session state is otherwise untouched. -/
theorem pong_single_slot_nonblocking (s : WSState) (t0 t1 now : Int) :
    NewWebsocketClient.pingSlot = none ∧
    (control s (Msg.pong (some t0) (some t1)) now).2 = none ∧
    (control s (Msg.pong (some t0) (some t1)) now).1.pingSlot =
      (if s.pingSlot.isNone then some (pongLatency t0 t1 now) else s.pingSlot) ∧
    (control s (Msg.pong (some t0) (some t1)) now).1.sent = s.sent ∧
    (control s (Msg.pong (some t0) (some t1)) now).1.stopped = s.stopped ∧
    (control s (Msg.pong (some t0) (some t1)) now).1.streamerStarted = s.streamerStarted := by
  cases h : s.pingSlot <;> simp [control, h, NewWebsocketClient]

end Changestream

namespace Api

/-- etre.Error (Message, Type, HTTPStatus, EntityId). The concrete error
constants of the api package live in a source file not at hand; they are
modelled from the spec's error table (kind string and HTTP status). -/
structure EtreError where
  message : String
  typ : String
  httpStatus : Nat
  entityId : String
deriving DecidableEq

/-- etre.Error.New: copy the error with a formatted message. -/
def EtreError.New (e : EtreError) (m : String) : EtreError := { e with message := m }

/-- Modelled from the spec: `invalid-query` — selector parse failure; HTTP 400. -/
def ErrInvalidQuery : EtreError :=
  { message := "", typ := "invalid-query", httpStatus := 400, entityId := "" }

/-- Modelled from the spec: `missing-param` — path/query validation; HTTP 400. -/
def ErrMissingParam : EtreError :=
  { message := "", typ := "missing-param", httpStatus := 400, entityId := "" }

/-- Modelled from the spec: `invalid-param` — path/query validation; HTTP 400. -/
def ErrInvalidParam : EtreError :=
  { message := "", typ := "invalid-param", httpStatus := 400, entityId := "" }

/-- Modelled from the spec: `db-error` — underlying engine failed; HTTP 500. -/
def ErrDb : EtreError :=
  { message := "", typ := "db-error", httpStatus := 500, entityId := "" }

/-- Modelled from the spec: `duplicate-entity` — unique constraint
violated; HTTP 409; carries EntityId. -/
def ErrDuplicateEntity : EtreError :=
  { message := "duplicate entity", typ := "duplicate-entity", httpStatus := 409, entityId := "" }

/-- Modelled from the spec: internal error used when binding the request
body fails; HTTP 500. -/
def ErrInternal : EtreError :=
  { message := "", typ := "internal-error", httpStatus := 500, entityId := "" }

/-- etre.Write: one element of a write response. -/
structure Write where
  id : String
  uri : String
  diff : Option Entity
  error : String
deriving DecidableEq

/-- etre.WriteResult: the versioned response envelope `{Writes, Error}`. -/
structure WriteResultEnv where
  writes : List Write
  error : Option EtreError
deriving DecidableEq

/-- The Go `error` values that reach `API.WriteResult`: an etre.Error, an
entity.ValidationError, an entity.DbError, or any other error (the
switch's default case). -/
inductive ApiErr where
  | etre (e : EtreError)
  | validation (msg typ : String)
  | db (typ msg entityId : String)
  | other (msg : String)
deriving DecidableEq

/-- The etre.Error that `WriteResult` builds from `err` (its
`switch v := err.(type)` block). -/
def ApiErr.toEtre : ApiErr → EtreError
  | .etre e => e
  | .validation m t => { message := m, typ := t, httpStatus := 400, entityId := "" }
  | .db t m eid =>
    if t = "duplicate-entity" then
      { ErrDuplicateEntity with
        entityId := eid,
        message := ErrDuplicateEntity.message ++ " (db err: " ++ m ++ ")" }
    else { message := m, typ := t, httpStatus := 500, entityId := eid }
  | .other m => { message := m, typ := "unhandled-error", httpStatus := 500, entityId := "" }

/-- `err.Error()`: the message string of the original error. -/
def ApiErr.message : ApiErr → String
  | .etre e => e.message
  | .validation m _ => m
  | .db _ m _ => m
  | .other m => m

/-- The JSON body returned by a write route: for a v0.8 client a bare
`Write` or a `[Write]` list, otherwise the `WriteResult` envelope. -/
inductive Body where
  | write (w : Write)
  | writes (ws : List Write)
  | envelope (wr : WriteResultEnv)
deriving DecidableEq

/-- The `v interface{}` argument of `API.WriteResult`: `nil`, diffs from
Update/Delete (`[]etre.Entity`), ids from Create (`[]string`), or the
single diff from DeleteLabel (`etre.Entity`). These are the only types
the handlers pass; any other type hits the source's explicit panic, so
it has no constructor here. -/
inductive VArg where
  | vnil
  | entities (diffs : List Entity)
  | ids (is : List String)
  | entity (diff : Entity)
deriving DecidableEq

/-- etre.API_ROOT (default from the spec). -/
def API_ROOT : String := "/api/v1"

/-- The URI built for a write: `api.addr + etre.API_ROOT + "/entity/" + id`. -/
def writeURI (addr id : String) : String := addr ++ API_ROOT ++ "/entity/" ++ id

/-- A `Write` for a diff entity returned by Update/Delete/DeleteLabel. -/
def diffWrite (addr : String) (d : Entity) : Write :=
  { id := d.id, uri := writeURI addr d.id, diff := some d, error := "" }

/-- A `Write` for an id returned by CreateEntities. -/
def idWrite (addr i : String) : Write :=
  { id := i, uri := writeURI addr i, diff := none, error := "" }

/-- The shared tail of `API.WriteResult` once `writes` and the HTTP
status are fixed: for a v0.8 client append the error write (if any) and
return the bare first write when the route has an `:id` param, else the
list; for any other client return the envelope. `writes[0]` on an empty
slice is a Go panic, modelled as `none`. -/
def finishWrites (clientVersion idParam : String) (err : Option ApiErr)
    (wrError : Option EtreError) (httpStatus : Nat) (writes : List Write) :
    Option (Nat × Body) :=
  let wr : WriteResultEnv := { writes := writes, error := wrError }
  if clientVersion = "0.8" then
    let writes2 : List Write :=
      match err with
      | some e =>
        writes ++ [{ id := (ApiErr.toEtre e).entityId, uri := "", diff := none,
                     error := e.message }]
      | none => writes
    if idParam ≠ "" then
      (writes2.head?).map (fun w => (httpStatus, Body.write w))
    else some (httpStatus, Body.writes writes2)
  else some (httpStatus, Body.envelope wr)

/-- API.WriteResult: map the error to an etre.Error and pick the HTTP
status from it (200 when no error); map `v` to `[]etre.Write` (ids from
CreateEntities force status 201); shape the body by client version via
`finishWrites`. `v = vnil` is the literal `nil` the handlers pass on
early errors; its envelope carries no writes, exactly as in the source
where `wr.Writes` stays nil. -/
def WriteResult (addr clientVersion idParam : String) (v : VArg) (err : Option ApiErr) :
    Option (Nat × Body) :=
  let wrError : Option EtreError := err.map ApiErr.toEtre
  let httpStatus : Nat :=
    match wrError with
    | some e => e.httpStatus
    | none => 200
  match v with
  | .vnil => finishWrites clientVersion idParam err wrError httpStatus []
  | .entities diffs =>
    finishWrites clientVersion idParam err wrError httpStatus (diffs.map (diffWrite addr))
  | .ids is =>
    finishWrites clientVersion idParam err wrError 201 (is.map (idWrite addr))
  | .entity d =>
    finishWrites clientVersion idParam err wrError httpStatus [diffWrite addr d]

/-- Longest leading run of decimal digits (the greedy match of a
regex digit run). -/
def takeDigits (cs : List Char) : List Char × List Char :=
  cs.span (fun c => c.isDigit)

/-- The regex `^v?(\d+\.\d+)` applied to the version string: drop an
optional leading `v`, then require digits, a dot and digits; the capture
is the `X.Y` part. `none` when the string does not match (the middleware
answers 400 in that case). -/
def matchVersion (s : String) : Option String :=
  let cs :=
    match s.data with
    | 'v' :: rest => rest
    | other => other
  match takeDigits cs with
  | ([], _) => none
  | (d1, '.' :: r2) =>
    match takeDigits r2 with
    | ([], _) => none
    | (d2, _) => some (String.mk (d1 ++ '.' :: d2))
  | (_, _) => none

/-- The pre-route middleware's client-version resolution: the
`X-Etre-Version` header if set, else the configured default, else the
server's own version; then the regex capture. -/
def resolveClientVersion (header defaultVersion currentVersion : String) : Option String :=
  let clientVersion :=
    if header = "" then
      if defaultVersion = "" then currentVersion else defaultVersion
    else header
  matchVersion clientVersion

/-- The write-op envelope built by `writeOp(c)` and stored in the
request context by the middleware. -/
structure WriteOpM where
  user : String
  entityType : String
  entityId : String
  setOp : String
  setId : String
  setSize : Nat
deriving DecidableEq

/-- The slice of an echo request context the handlers read: path params,
the `query`/`labels` query params, the resolved client version, the
write-op envelope, and the result of binding the request body to a
patch entity (`c.Bind`). -/
structure Ctx where
  typeParam : String
  idParam : String
  queryParam : String
  labelsParam : String
  clientVersion : String
  wo : WriteOpM
  bindPatch : Except String Entity

/-- bson.IsObjectIdHex: 24 hex characters. -/
def isObjectIdHex (s : String) : Bool :=
  s.data.length = 24 &&
    s.data.all (fun c => c.isDigit || ('a' ≤ c && c ≤ 'f') || ('A' ≤ c && c ≤ 'F'))

/-- validateParams: `:type` must be present; when the route has an `:id`
param it must be present and a valid ObjectId hex. -/
def validateParams (c : Ctx) (needEntityId : Bool) : Option EtreError :=
  if c.typeParam = "" then some (ErrMissingParam.New "missing type param")
  else if needEntityId then
    if c.idParam = "" then some (ErrMissingParam.New "missing id param")
    else if isObjectIdHex c.idParam then none
    else some (ErrInvalidParam.New ("id " ++ c.idParam ++ " is not a valid bson.ObjectId"))
  else none

/-- A read route's outcome: `readError` (an echo HTTPError wrapping an
etre.Error, or a bare status for `queryHandler`'s nil error) or a JSON
entity list. -/
inductive ReadResp where
  | httpError (status : Nat) (err : Option EtreError)
  | okJson (status : Nat) (body : List Entity)
deriving DecidableEq

/-- readError: an etre.Error becomes an HTTPError with its own status. -/
def readError (e : EtreError) : ReadResp := ReadResp.httpError e.httpStatus (some e)

/-- API.getEntitiesHandler. `translate` is `query.Translate`, `store` is
`entity.Store.ReadEntities` (both external to this package); the `Bool`
of the result records whether the store was consulted. Mirrors the
source order: validateParams, reject an empty `query` param, translate
the selector, build the label filter, query the store. -/
def getEntitiesHandler (translate : String → Except String Query)
    (store : String → Query → List String → Except String (List Entity))
    (c : Ctx) : ReadResp × Bool :=
  match validateParams c false with
  | some e => (readError e, false)
  | none =>
    if c.queryParam = "" then
      (readError (ErrInvalidQuery.New "query string is empty"), false)
    else
      match translate c.queryParam with
      | .error e => (readError (ErrInvalidQuery.New ("invalid query: " ++ e)), false)
      | .ok q =>
        let f : List String :=
          if c.labelsParam ≠ "" then c.labelsParam.splitOn "," else []
        match store c.typeParam q f with
        | .error e => (readError (ErrDb.New e), true)
        | .ok ents => (ReadResp.okJson 200 ents, true)

/-- API.queryHandler: `return echo.NewHTTPError(http.StatusNotImplemented,
nil)` — unconditionally 501, no store access. -/
def queryHandler (_c : Ctx) : ReadResp × Bool :=
  (ReadResp.httpError 501 none, false)

/-- API.putEntitiesHandler. `validateE` is `api.validate.Entities` for
the patch, `storeUpdate` is `entity.Store.UpdateEntities` (returning the
diffs together with a possible error — both can be non-empty on partial
success). Mirrors the source order: validateParams, reject an empty
`query` param, translate, bind the patch, validate it, update. -/
def putEntitiesHandler (addr : String) (translate : String → Except String Query)
    (validateE : Entity → Option ApiErr)
    (storeUpdate : WriteOpM → Query → Entity → List Entity × Option ApiErr)
    (c : Ctx) : Option (Nat × Body) × Bool :=
  match validateParams c false with
  | some e =>
    (WriteResult addr c.clientVersion c.idParam VArg.vnil (some (ApiErr.etre e)), false)
  | none =>
    if c.queryParam = "" then
      (WriteResult addr c.clientVersion c.idParam VArg.vnil
        (some (ApiErr.etre (ErrInvalidQuery.New "query string is empty"))), false)
    else
      match translate c.queryParam with
      | .error e =>
        (WriteResult addr c.clientVersion c.idParam VArg.vnil
          (some (ApiErr.etre (ErrInvalidQuery.New ("invalid query: " ++ e)))), false)
      | .ok q =>
        match c.bindPatch with
        | .error e =>
          (WriteResult addr c.clientVersion c.idParam VArg.vnil
            (some (ApiErr.etre (ErrInternal.New e))), false)
        | .ok patch =>
          match validateE patch with
          | some e =>
            (WriteResult addr c.clientVersion c.idParam VArg.vnil (some e), false)
          | none =>
            let r := storeUpdate c.wo q patch
            (WriteResult addr c.clientVersion c.idParam (VArg.entities r.1) r.2, true)

/-- API.deleteEntitiesHandler. `storeDelete` is
`entity.Store.DeleteEntities`. Mirrors the source order: validateParams,
reject an empty `query` param, translate, delete. -/
def deleteEntitiesHandler (addr : String) (translate : String → Except String Query)
    (storeDelete : WriteOpM → Query → List Entity × Option ApiErr)
    (c : Ctx) : Option (Nat × Body) × Bool :=
  match validateParams c false with
  | some e =>
    (WriteResult addr c.clientVersion c.idParam VArg.vnil (some (ApiErr.etre e)), false)
  | none =>
    if c.queryParam = "" then
      (WriteResult addr c.clientVersion c.idParam VArg.vnil
        (some (ApiErr.etre (ErrInvalidQuery.New "query string is empty"))), false)
    else
      match translate c.queryParam with
      | .error e =>
        (WriteResult addr c.clientVersion c.idParam VArg.vnil
          (some (ApiErr.etre (ErrInvalidQuery.New ("invalid query: " ++ e)))), false)
      | .ok q =>
        let r := storeDelete c.wo q
        (WriteResult addr c.clientVersion c.idParam (VArg.entities r.1) r.2, true)

theorem finishWrites_shape (cv idp : String) (err : Option ApiErr)
    (wrE : Option EtreError) (st0 : Nat) (ws : List Write) (st : Nat) (b : Body)
    (h : finishWrites cv idp err wrE st0 ws = some (st, b)) :
    (cv = "0.8" → (idp = "" → ∃ l, b = Body.writes l) ∧ (idp ≠ "" → ∃ w, b = Body.write w)) ∧
    (cv ≠ "0.8" → ∃ wr, b = Body.envelope wr) := by
  by_cases h8 : cv = "0.8"
  · refine ⟨fun _ => ⟨?_, ?_⟩, fun hn => absurd h8 hn⟩
    · intro hid
      simp [finishWrites, h8, hid] at h
      exact ⟨_, h.2.symm⟩
    · intro hid
      simp [finishWrites, h8, hid, Option.map_eq_some'] at h
      obtain ⟨w, _, _, hb⟩ := h
      exact ⟨w, hb.symm⟩
  · refine ⟨fun he => absurd he h8, fun _ => ?_⟩
    simp [finishWrites, h8] at h
    exact ⟨_, h.2.symm⟩

/-- Claim C2: whenever a write route produces a response (`WriteResult`
returns), a client whose resolved `X-Etre-Version` is `0.8` gets a bare
`Write` on routes with an `:id` path param and a `[Write]` list
otherwise, while any other resolved version gets the `WriteResult`
envelope. -/
theorem write_response_shape_by_version
    (hdr dflt cur addr cv idp : String) (v : VArg) (err : Option ApiErr)
    (st : Nat) (b : Body)
    (hcv : resolveClientVersion hdr dflt cur = some cv)
    (hw : WriteResult addr cv idp v err = some (st, b)) :
    (cv = "0.8" → (idp = "" → ∃ l, b = Body.writes l) ∧ (idp ≠ "" → ∃ w, b = Body.write w)) ∧
    (cv ≠ "0.8" → ∃ wr, b = Body.envelope wr) := by
  cases v <;>
    · simp only [WriteResult] at hw
      exact finishWrites_shape _ _ _ _ _ _ _ _ hw

theorem write_response_shape_by_version_witness :
    ((("0.8" : String) = "0.8" →
      ((("x" : String) = "" → ∃ l, Body.write (idWrite "a" "i1") = Body.writes l) ∧
       (("x" : String) ≠ "" → ∃ w, Body.write (idWrite "a" "i1") = Body.write w))) ∧
     (("0.8" : String) ≠ "0.8" → ∃ wr, Body.write (idWrite "a" "i1") = Body.envelope wr)) :=
  write_response_shape_by_version "0.8" "" "" "a" "0.8" "x" (VArg.ids ["i1"]) none
    201 (Body.write (idWrite "a" "i1")) (by decide) rfl

/-- Claim C7: `queryHandler` answers every request with HTTP 501
not-implemented; it never consults the store and returns no entities. -/
theorem queryHandler_always_501 (c : Ctx) :
    queryHandler c = (ReadResp.httpError 501 none, false) := rfl

theorem WriteResult_vnil_some_status (addr cv idp : String) (a : ApiErr) :
    ∃ b, WriteResult addr cv idp VArg.vnil (some a) =
      some ((ApiErr.toEtre a).httpStatus, b) := by
  by_cases h8 : cv = "0.8"
  · by_cases hid : idp = "" <;> simp [WriteResult, finishWrites, h8, hid]
  · simp [WriteResult, finishWrites, h8]

/-- Claim C9: on each bulk entities route (GET, PUT, DELETE on
`/entities/:type`) a request with an empty `query` parameter is rejected
with the invalid-query error (HTTP 400) and the store is never
consulted (the `Bool` flag stays `false`), whatever the translator and
store would do — so the empty selector can never reach the store
through these routes. -/
theorem bulk_routes_reject_empty_query
    (addr : String) (translate : String → Except String Query)
    (storeRead : String → Query → List String → Except String (List Entity))
    (validateE : Entity → Option ApiErr)
    (storeUpdate : WriteOpM → Query → Entity → List Entity × Option ApiErr)
    (storeDelete : WriteOpM → Query → List Entity × Option ApiErr)
    (c : Ctx) (ht : c.typeParam ≠ "") (hq : c.queryParam = "") :
    getEntitiesHandler translate storeRead c =
      (ReadResp.httpError 400 (some (ErrInvalidQuery.New "query string is empty")), false) ∧
    putEntitiesHandler addr translate validateE storeUpdate c =
      (WriteResult addr c.clientVersion c.idParam VArg.vnil
        (some (ApiErr.etre (ErrInvalidQuery.New "query string is empty"))), false) ∧
    deleteEntitiesHandler addr translate storeDelete c =
      (WriteResult addr c.clientVersion c.idParam VArg.vnil
        (some (ApiErr.etre (ErrInvalidQuery.New "query string is empty"))), false) ∧
    (∃ b, WriteResult addr c.clientVersion c.idParam VArg.vnil
        (some (ApiErr.etre (ErrInvalidQuery.New "query string is empty"))) = some (400, b)) := by
  refine ⟨?_, ?_, ?_, ?_⟩
  · simp [getEntitiesHandler, validateParams, ht, hq, readError, ErrInvalidQuery, EtreError.New]
  · simp [putEntitiesHandler, validateParams, ht, hq]
  · simp [deleteEntitiesHandler, validateParams, ht, hq]
  · exact WriteResult_vnil_some_status addr c.clientVersion c.idParam
      (ApiErr.etre (ErrInvalidQuery.New "query string is empty"))

/-- A write-op and request context used to instantiate handler claims. -/
def sampleWo : WriteOpM :=
  { user := "", entityType := "nodes", entityId := "", setOp := "", setId := "", setSize := 0 }

/-- A request on `/entities/nodes` with no `query` parameter. -/
def sampleCtx : Ctx :=
  { typeParam := "nodes", idParam := "", queryParam := "", labelsParam := "",
    clientVersion := "0.9", wo := sampleWo,
    bindPatch := Except.ok { id := "", labels := [] } }

theorem bulk_routes_reject_empty_query_witness :
    getEntitiesHandler (fun _ => Except.ok { predicates := [] })
        (fun _ _ _ => Except.ok []) sampleCtx =
      (ReadResp.httpError 400 (some (ErrInvalidQuery.New "query string is empty")), false) ∧
    putEntitiesHandler "a" (fun _ => Except.ok { predicates := [] })
        (fun _ => none) (fun _ _ _ => ([], none)) sampleCtx =
      (WriteResult "a" "0.9" "" VArg.vnil
        (some (ApiErr.etre (ErrInvalidQuery.New "query string is empty"))), false) ∧
    deleteEntitiesHandler "a" (fun _ => Except.ok { predicates := [] })
        (fun _ _ => ([], none)) sampleCtx =
      (WriteResult "a" "0.9" "" VArg.vnil
        (some (ApiErr.etre (ErrInvalidQuery.New "query string is empty"))), false) ∧
    (∃ b, WriteResult "a" "0.9" "" VArg.vnil
        (some (ApiErr.etre (ErrInvalidQuery.New "query string is empty"))) = some (400, b)) :=
  bulk_routes_reject_empty_query "a" (fun _ => Except.ok { predicates := [] })
    (fun _ _ _ => Except.ok []) (fun _ => none) (fun _ _ _ => ([], none))
    (fun _ _ => ([], none)) sampleCtx (by decide) rfl

/-- Claim C10 counterexample: `WriteResult` called with `v = nil`,
`err = nil`, resolved client version `0.8` and a non-empty `:id` param
evaluates `writes[0]` on the empty writes slice — a Go index-out-of-range
panic, modelled as `none`: the function does not return a response. -/
theorem WriteResult_nil_v08_id_panics :
    WriteResult "" "0.8" "abc" VArg.vnil none = none := rfl

/-- Claim C10 (amended): `WriteResult` with `v = nil` returns an HTTP
status and a body for every error value and client version, except in
the one case where the version is `0.8`, the `:id` path param is
non-empty and `err` is nil — there it panics with an index out of range
on the empty writes slice. -/
theorem WriteResult_nil_no_panic_amended (addr cv idp : String) (err : Option ApiErr)
    (h : ¬(cv = "0.8" ∧ idp ≠ "" ∧ err = none)) :
    ∃ r, WriteResult addr cv idp VArg.vnil err = some r := by
  by_cases h8 : cv = "0.8"
  · by_cases hid : idp = ""
    · cases err <;> simp [WriteResult, finishWrites, h8, hid]
    · cases err with
      | none => exact absurd ⟨h8, hid, rfl⟩ h
      | some e => simp [WriteResult, finishWrites, h8, hid]
  · cases err <;> simp [WriteResult, finishWrites, h8]

theorem WriteResult_nil_no_panic_amended_witness :
    ∃ r, WriteResult "a" "0.9" "x" VArg.vnil none = some r :=
  WriteResult_nil_no_panic_amended "a" "0.9" "x" none (by decide)

end Api

namespace Db

/-- Modelled from the spec: the reserved words that cannot be entity
types (the db package's implementation is not among the sources at
hand; only its tests are). -/
def reservedNames : List String :=
  ["entities", "entity", "query", "stats", "metrics", "status", "changes"]

/-- Modelled from the spec: a db.Connector holds the entity types it was
configured with at construction. -/
structure Connector where
  entityTypes : List String
deriving DecidableEq

/-- Modelled from the spec and `TestCreateNewConnectorError`:
db.NewConnector rejects a configured entity type that is a reserved
word with the error `Entity type (<t>) cannot be a reserved word`. -/
def NewConnector (entityTypes : List String) : Except String Connector :=
  match entityTypes.find? (fun t => decide (t ∈ reservedNames)) with
  | some t => Except.error ("Entity type (" ++ t ++ ") cannot be a reserved word")
  | none => Except.ok { entityTypes := entityTypes }

/-- Modelled from the spec: an entity type is valid for a connector when
it is one of the configured types (reserved words never are, since
construction rejects them). -/
def validEntityType (c : Connector) (t : String) : Bool :=
  decide (t ∈ c.entityTypes)

/-- The error message the connector operations produce for an invalid
entity type (from the db tests). -/
def invalidEntityTypeMsg (t : String) : String := "Invalid entityType name: " ++ t

/-- Modelled from the spec: db.Connector.CreateEntities validates the
entity type first; the insert itself runs on the external document
engine, represented by the ids it would return. -/
def CreateEntities (c : Connector) (t : String) (_entities : List Entity)
    (engineIds : List String) : Except String (List String) :=
  if validEntityType c t then Except.ok engineIds
  else Except.error (invalidEntityTypeMsg t)

/-- Modelled from the spec: db.Connector.ReadEntities validates the
entity type first; the query itself runs on the external document
engine, represented by the entities it would return. -/
def ReadEntities (c : Connector) (t : String) (_q : Query)
    (engineResult : List Entity) : Except String (List Entity) :=
  if validEntityType c t then Except.ok engineResult
  else Except.error (invalidEntityTypeMsg t)

/-- Modelled from the spec: db.Connector.UpdateEntities validates the
entity type first; the update itself runs on the external document
engine, represented by the diffs it would return. -/
def UpdateEntities (c : Connector) (t : String) (_q : Query) (_u : Entity)
    (engineDiffs : List Entity) : Except String (List Entity) :=
  if validEntityType c t then Except.ok engineDiffs
  else Except.error (invalidEntityTypeMsg t)

/-- Modelled from the spec: db.Connector.DeleteEntities validates the
entity type first; the delete itself runs on the external document
engine, represented by the pre-images it would return. -/
def DeleteEntities (c : Connector) (t : String) (_q : Query)
    (engineDeleted : List Entity) : Except String (List Entity) :=
  if validEntityType c t then Except.ok engineDeleted
  else Except.error (invalidEntityTypeMsg t)

/-- Modelled from the spec: db.Connector.DeleteEntityLabel validates the
entity type first; the label removal itself runs on the external
document engine, represented by the diff it would return. -/
def DeleteEntityLabel (c : Connector) (t : String) (_id _label : String)
    (engineDiff : Entity) : Except String Entity :=
  if validEntityType c t then Except.ok engineDiff
  else Except.error (invalidEntityTypeMsg t)

/-- `pat` occurs as a substring of `s` (what Go's `strings.Contains`
checks in the tests). -/
def containsSub (s pat : String) : Prop := ∃ pre suf, s = pre ++ pat ++ suf

theorem NewConnector_ok_not_reserved (types : List String) (c : Connector)
    (h : NewConnector types = Except.ok c) (t : String) (ht : t ∈ reservedNames) :
    validEntityType c t = false := by
  unfold NewConnector at h
  cases hf : types.find? (fun t => decide (t ∈ reservedNames)) with
  | some u => rw [hf] at h; exact absurd h (by simp)
  | none =>
    rw [hf] at h
    have hc : c = { entityTypes := types } := by
      cases h
      rfl
    subst hc
    have hmem : t ∉ types := by
      intro hm
      have := List.find?_eq_none.mp hf t hm
      simp at this
      exact this ht
    simp [validEntityType, hmem]

theorem invalid_msg_contains (t : String) :
    containsSub (invalidEntityTypeMsg t) "Invalid entityType name" :=
  ⟨"", ": " ++ t, by
    show invalidEntityTypeMsg t = "" ++ "Invalid entityType name" ++ (": " ++ t)
    rw [invalidEntityTypeMsg, String.empty_append, ← String.append_assoc]
    congr 1⟩

/-- Claim C8: on any connector that construction accepted, each store
operation invoked with the reserved entity type `entities` returns an
error whose message contains `Invalid entityType name`. -/
theorem reserved_entity_type_rejected
    (types : List String) (c : Connector) (h : NewConnector types = Except.ok c)
    (es : List Entity) (ids : List String) (q : Query)
    (ents diffs dels : List Entity) (u : Entity) (id label : String) (diff : Entity) :
    (∃ m, CreateEntities c "entities" es ids = Except.error m ∧
      containsSub m "Invalid entityType name") ∧
    (∃ m, ReadEntities c "entities" q ents = Except.error m ∧
      containsSub m "Invalid entityType name") ∧
    (∃ m, UpdateEntities c "entities" q u diffs = Except.error m ∧
      containsSub m "Invalid entityType name") ∧
    (∃ m, DeleteEntities c "entities" q dels = Except.error m ∧
      containsSub m "Invalid entityType name") ∧
    (∃ m, DeleteEntityLabel c "entities" id label diff = Except.error m ∧
      containsSub m "Invalid entityType name") := by
  have hv : validEntityType c "entities" = false :=
    NewConnector_ok_not_reserved types c h "entities" (by simp [reservedNames])
  refine ⟨⟨_, ?_, invalid_msg_contains "entities"⟩,
          ⟨_, ?_, invalid_msg_contains "entities"⟩,
          ⟨_, ?_, invalid_msg_contains "entities"⟩,
          ⟨_, ?_, invalid_msg_contains "entities"⟩,
          ⟨_, ?_, invalid_msg_contains "entities"⟩⟩ <;>
    simp [CreateEntities, ReadEntities, UpdateEntities, DeleteEntities,
          DeleteEntityLabel, hv]

theorem reserved_entity_type_rejected_witness :
    (∃ m, CreateEntities { entityTypes := ["nodes"] } "entities" [] [] = Except.error m ∧
      containsSub m "Invalid entityType name") ∧
    (∃ m, ReadEntities { entityTypes := ["nodes"] } "entities" { predicates := [] } [] =
      Except.error m ∧ containsSub m "Invalid entityType name") ∧
    (∃ m, UpdateEntities { entityTypes := ["nodes"] } "entities" { predicates := [] }
      { id := "", labels := [] } [] = Except.error m ∧
      containsSub m "Invalid entityType name") ∧
    (∃ m, DeleteEntities { entityTypes := ["nodes"] } "entities" { predicates := [] } [] =
      Except.error m ∧ containsSub m "Invalid entityType name") ∧
    (∃ m, DeleteEntityLabel { entityTypes := ["nodes"] } "entities" "id1" "x"
      { id := "", labels := [] } = Except.error m ∧
      containsSub m "Invalid entityType name") :=
  reserved_entity_type_rejected ["nodes"] { entityTypes := ["nodes"] } rfl
    [] [] { predicates := [] } [] [] [] { id := "", labels := [] } "id1" "x"
    { id := "", labels := [] }

end Db

end Etre
